import Mathlib

/-!
Verification of the usuncu sun/shade application core.

The development shallowly embeds the data model of src/lib/types.ts, the
shadow engine of src/lib/shadow.ts, the viewport coverage tracker of
src/lib/geo.ts, the data-pool merge action of src/store/appStore.ts and the
classification effect of src/components/map/MapComponent.tsx.

External numeric and geometric primitives (Math.tan, Math.PI,
turf.destination, turf.convex, turf.centroid, turf.booleanPointInPolygon)
are third-party library calls, not code of this repository; they are
modelled as the fields of a `GeoLib` parameter so that every theorem about
the repository's own control flow holds for every behaviour of the
library.  turf.difference, which getUnfetchedAreas only ever applies to
rectilinear regions built from bounding boxes, is modelled as exact
axis-aligned rectangle-region difference with the null-on-empty contract
of the library.  JavaScript numbers are modelled as rationals.
-/

namespace Usuncu

/-- Geographic coordinate, from Coordinates in src/lib/types.ts. -/
structure Coordinates where
  lat : ℚ
  lng : ℚ
deriving DecidableEq, Repr

/-- A GeoJSON position, an (longitude, latitude) pair. -/
abbrev Position := ℚ × ℚ

/-- Building footprint geometry, from Building.geometry in src/lib/types.ts:
either a Polygon (a list of rings) or a MultiPolygon (a list of polygons). -/
inductive BuildingGeom where
  | polygon (rings : List (List Position))
  | multiPolygon (polys : List (List (List Position)))
deriving DecidableEq, Repr

/-- Building record, from src/lib/types.ts.  The geometry field is declared
non-null in the TypeScript interface but calculateShadowPolygon explicitly
guards against an undefined geometry, so it is modelled as an Option. -/
structure Building where
  id : String
  geometry : Option BuildingGeom
  height : Option ℚ
  center : Coordinates
deriving DecidableEq, Repr

/-- Place geometry, from Place.geometry in src/lib/types.ts. -/
inductive PlaceGeom where
  | point (pos : Position)
  | polygon (rings : List (List Position))
  | lineString (pts : List Position)
deriving DecidableEq, Repr

/-- Place record, from src/lib/types.ts.  isInSun is tri-valued:
none before the first classification pass, some true / some false after. -/
structure Place where
  id : String
  name : Option String
  tags : List (String × String)
  center : Coordinates
  geometry : Option PlaceGeom
  isBuildingOutline : Bool
  relevantShadowPoint : Option Coordinates
  isInSun : Option Bool
deriving DecidableEq, Repr

/-- Sun position, from src/hooks/useSunPosition.ts: azimuth in radians
measured from south, clockwise; altitude in radians above the horizon. -/
structure SunPosition where
  azimuth : ℚ
  altitude : ℚ
deriving DecidableEq, Repr

/-- Bounding box (south, west, north, east), from BoundingBox in
src/lib/types.ts. -/
structure BBox where
  south : ℚ
  west : ℚ
  north : ℚ
  east : ℚ
deriving DecidableEq, Repr

/-- A shadow polygon feature as produced by turf.convex: a polygon given by
its rings. -/
structure Poly where
  rings : List (List Position)
deriving DecidableEq, Repr

/-- The external numeric and geometric primitives used by src/lib/shadow.ts.
Math.tan and Math.PI come from the JavaScript runtime, the rest from the
turf library; none are code of this repository.  destination returns none
when turf.destination throws (the per-vertex catch in the source), convex
returns none when turf.convex returns null or throws, centroid returns
none when turf.centroid throws. -/
structure GeoLib where
  tan : ℚ → ℚ
  piQ : ℚ
  destination : Position → ℚ → ℚ → Option Position
  convex : List Position → Option Poly
  centroid : List (List Position) → Option Coordinates
  pointInPolygon : Position → Poly → Bool

/-! ### The accumulated data pool and its merge action (src/store/appStore.ts) -/

/-- The slice of the zustand store state touched by addFetchedOsmData:
the global place pool, building pool and fetch history. -/
structure OsmDataState where
  allFetchedPlaces : List Place
  allFetchedBuildings : List Building
  fetchedBoundsHistory : List BBox
deriving DecidableEq, Repr

/-- Merge action addFetchedOsmData from src/store/appStore.ts lines 289-328:
filter the incoming places and buildings against the ids already present in
the pools, append the survivors, and append the fetched bounding box to the
history. -/
def addFetchedOsmData (state : OsmDataState) (newPlaces : List Place)
    (newBuildings : List Building) (fetchedBbox : BBox) : OsmDataState :=
  let existingPlaceIds := state.allFetchedPlaces.map Place.id
  let uniqueNewPlaces := newPlaces.filter fun p => !(existingPlaceIds.contains p.id)
  let updatedAllFetchedPlaces := state.allFetchedPlaces ++ uniqueNewPlaces
  let existingBuildingIds := state.allFetchedBuildings.map Building.id
  let uniqueNewBuildings := newBuildings.filter fun b => !(existingBuildingIds.contains b.id)
  let updatedAllFetchedBuildings := state.allFetchedBuildings ++ uniqueNewBuildings
  let updatedFetchedBoundsHistory := state.fetchedBoundsHistory ++ [fetchedBbox]
  { allFetchedPlaces := updatedAllFetchedPlaces
    allFetchedBuildings := updatedAllFetchedBuildings
    fetchedBoundsHistory := updatedFetchedBoundsHistory }

/-! ### The shadow caster (src/lib/shadow.ts) -/

/-- Threshold MIN_SUN_ALTITUDE_RAD = 0.01 from src/lib/shadow.ts. -/
def MIN_SUN_ALTITUDE_RAD : ℚ := 1 / 100

/-- Constant DEFAULT_BUILDING_HEIGHT = 10 from src/lib/shadow.ts. -/
def DEFAULT_BUILDING_HEIGHT : ℚ := 10

/-- JavaScript numeric truthiness fallback, modelling the expression
building.height || DEFAULT_BUILDING_HEIGHT: both null and 0 are falsy and
select the default. -/
def jsOrQ (x : Option ℚ) (default : ℚ) : ℚ :=
  match x with
  | none => default
  | some v => if v = 0 then default else v

/-- Truncation toward zero, as used by the JavaScript remainder operator. -/
def truncQ (x : ℚ) : ℤ :=
  if 0 ≤ x then ⌊x⌋ else ⌈x⌉

/-- The JavaScript remainder operator a % b: remainder of division
truncated toward zero, so the result carries the sign of the dividend. -/
def jsModQ (x y : ℚ) : ℚ :=
  x - y * (truncQ (x / y) : ℚ)

/-- Mathematical (floor-based) modulus on rationals, used to state the
spec-side bearing formula. -/
def rmodQ (x y : ℚ) : ℚ :=
  x - y * (⌊x / y⌋ : ℚ)

/-- The intermediate sunAzimuthDegreesFromNorth of src/lib/shadow.ts line
279: (azimuth * (180 / Math.PI) + 180) % 360, converting the south-based
azimuth in radians to a compass bearing from north in degrees. -/
def sunAzimuthDegreesFromNorth (piQ azimuth : ℚ) : ℚ :=
  jsModQ (azimuth * (180 / piQ) + 180) 360

/-- The shadowBearing of src/lib/shadow.ts line 281:
(sunAzimuthDegreesFromNorth + 180) % 360. -/
def shadowBearing (piQ azimuth : ℚ) : ℚ :=
  jsModQ (sunAzimuthDegreesFromNorth piQ azimuth + 180) 360

/-- Spec-side conversion of the south-based solar azimuth (radians,
clockwise) to a compass bearing from north, written to the spec's words:
add 180 degrees to the azimuth in degrees and reduce modulo 360. -/
def compassBearingFromNorth (piQ azimuth : ℚ) : ℚ :=
  rmodQ (azimuth * (180 / piQ) + 180) 360

/-- Spec-side shadow bearing, written to the spec's words: the compass
bearing of the sun from north plus 180 degrees, taken modulo 360 — the
direction opposite the sun. -/
def specShadowBearing (piQ azimuth : ℚ) : ℚ :=
  rmodQ (compassBearingFromNorth piQ azimuth + 180) 360

/-- Outer-ring selection of calculateShadowPolygon, src/lib/shadow.ts lines
225-258: for a Polygon take the first ring, for a MultiPolygon the first
ring of the first polygon, rejecting when the ring is missing or has fewer
than 4 coordinate entries. -/
def footprintRing : BuildingGeom → Option (List Position)
  | .polygon rings =>
    match rings.head? with
    | none => none
    | some ring0 => if ring0.length < 4 then none else some ring0
  | .multiPolygon polys =>
    match polys.head? with
    | none => none
    | some poly0 =>
      match poly0.head? with
      | none => none
      | some ring0 => if ring0.length < 4 then none else some ring0

/-- The shadow length computed at src/lib/shadow.ts lines 211-218:
(building.height || DEFAULT_BUILDING_HEIGHT) / Math.tan(altitude). -/
def shadowLengthQ (lib : GeoLib) (building : Building) (sun : SunPosition) : ℚ :=
  jsOrQ building.height DEFAULT_BUILDING_HEIGHT / lib.tan sun.altitude

/-- calculateShadowPolygon from src/lib/shadow.ts lines 197-351, with the
turf and Math primitives supplied by lib.  The per-vertex try/catch around
turf.destination is modelled by destination returning an Option and the
loop collecting only the successful projections (filterMap), after which
the source compares the number of projections with the number of footprint
vertices.  The source's runtime checks that each vertex is an array of at
least two numbers are identically true in the typed model and the
validPointsForHull filter therefore keeps every point. -/
def calculateShadowPolygon (lib : GeoLib) (building : Building)
    (sunPosition : SunPosition) : Option Poly :=
  match building.geometry with
  | none => none
  | some geom =>
    if sunPosition.altitude ≤ MIN_SUN_ALTITUDE_RAD then none
    else
      let buildingHeight := jsOrQ building.height DEFAULT_BUILDING_HEIGHT
      if buildingHeight ≤ 0 then none
      else
        let tanAltitude := lib.tan sunPosition.altitude
        if tanAltitude ≤ 0 then none
        else
          let shadowLength := buildingHeight / tanAltitude
          if shadowLength ≤ 1 / 100 then none
          else
            match footprintRing geom with
            | none => none
            | some footprintVertices =>
              let bearing := shadowBearing lib.piQ sunPosition.azimuth
              let shadowPoints := footprintVertices.filterMap
                fun v => lib.destination v shadowLength bearing
              if shadowPoints.length ≠ footprintVertices.length ∨ shadowPoints.length = 0
              then none
              else
                let allPointsForHull := footprintVertices ++ shadowPoints
                if allPointsForHull.length < 3 then none
                else lib.convex allPointsForHull

/-! ### The classifier (src/lib/shadow.ts, second part) -/

/-- GeoJSON position of a Coordinates value, longitude first. -/
def posOfCoord (c : Coordinates) : Position := (c.lng, c.lat)

/-- isLocationInSun from src/lib/shadow.ts lines 354-398: a null location
defaults to in-sun, an empty shadow list means in-sun, otherwise the point
is in the sun exactly when the scan over the shadow features finds no
containing polygon.  Null entries in the feature list are skipped by the
source's feature guard and are modelled as none entries; the try/catch
around the containment test is modelled by pointInPolygon being a total
boolean function. -/
def isLocationInSun (pointInPolygon : Position → Poly → Bool)
    (location : Option Coordinates) (allCalculatedShadows : List (Option Poly)) : Bool :=
  match location with
  | none => true
  | some loc =>
    if allCalculatedShadows.length = 0 then true
    else
      !(allCalculatedShadows.any fun s =>
        match s with
        | some shadowFeature => pointInPolygon (posOfCoord loc) shadowFeature
        | none => false)

/-- getRelevantShadowPointForPlace from src/lib/shadow.ts lines 400-437:
when the place is flagged as a building outline and carries a non-empty
Polygon geometry, use the centroid of that polygon, falling back to the
stored center when the centroid computation throws; in every other case
return the stored center.  The buildings parameter is accepted and unused,
exactly as in the source. -/
def getRelevantShadowPointForPlace (lib : GeoLib) (place : Place)
    (buildings : List Building) : Coordinates :=
  match place.geometry with
  | some (.polygon rings) =>
    if place.isBuildingOutline ∧ rings ≠ [] then
      match lib.centroid rings with
      | some c => c
      | none => place.center
    else place.center
  | _ => place.center

/-- Guard of the centroid branch of getRelevantShadowPointForPlace, as a
statement abbreviation: the place is flagged as a building outline and has
a non-empty Polygon geometry. -/
def usesOwnCentroid (place : Place) : Bool :=
  match place.geometry with
  | some (.polygon rings) => place.isBuildingOutline && !rings.isEmpty
  | _ => false

/-- The classification step of the core-logic effect in
src/components/map/MapComponent.tsx lines 396-440, restricted to the data
it computes (the map-layer bookkeeping has no bearing on the place
records).  The source's combined guard (no sun position or no buildings,
with targetIsInSun = !!sunPosition) is unfolded into its two cases: sun
unavailable marks every place in-shade, sun up with no buildings marks
every place in-sun; otherwise every building's shadow is computed and each
place is classified at its relevant shadow point. -/
def classifyPlaces (lib : GeoLib) (sunPosition : Option SunPosition)
    (buildings : List Building) (allPlacesFromStore : List Place) : List Place :=
  match sunPosition with
  | none =>
    allPlacesFromStore.map fun p =>
      { p with isInSun := some false
               relevantShadowPoint := some (getRelevantShadowPointForPlace lib p []) }
  | some sp =>
    if buildings.length = 0 then
      allPlacesFromStore.map fun p =>
        { p with isInSun := some true
                 relevantShadowPoint := some (getRelevantShadowPointForPlace lib p []) }
    else
      let currentShadowFeatures :=
        (buildings.filterMap fun b => calculateShadowPolygon lib b sp).map some
      allPlacesFromStore.map fun p =>
        let relevantPoint := getRelevantShadowPointForPlace lib p buildings
        { p with isInSun := some (isLocationInSun lib.pointInPolygon
                   (some relevantPoint) currentShadowFeatures)
                 relevantShadowPoint := some relevantPoint }

/-! ### The region fetch-coverage tracker (src/lib/geo.ts) -/

/-- Difference of one axis-aligned rectangle minus another, as up to four
clipped rectangles (the part below, the part above, and the left and right
side bands of the overlapping latitude range); degenerate slivers are
dropped.  This is the exact set difference of the two rectangles up to
their measure-zero boundaries, which is the contract of the external
polygon-clipping call that getUnfetchedAreas applies to the rectilinear
regions built from bounding boxes. -/
def rectMinus (a b : BBox) : List BBox :=
  [ BBox.mk a.south a.west (min a.north b.south) a.east,
    BBox.mk (max a.south b.north) a.west a.north a.east,
    BBox.mk (max a.south b.south) a.west (min a.north b.north) (min a.east b.west),
    BBox.mk (max a.south b.south) (max a.west b.east) (min a.north b.north) a.east
  ].filter fun r => decide (r.south < r.north) && decide (r.west < r.east)

/-- A rectilinear region minus a rectangle: clip every constituent
rectangle. -/
def regionMinus (region : List BBox) (b : BBox) : List BBox :=
  region.foldr (fun r acc => rectMinus r b ++ acc) []

/-- The turf.difference call of getUnfetchedAreas on rectilinear regions:
null (none) when the difference is empty, the difference region
otherwise. -/
def turfDifference (region : List BBox) (b : BBox) : Option (List BBox) :=
  let d := regionMinus region b
  if d = [] then none else some d

/-- The subtraction loop of getUnfetchedAreas, src/lib/geo.ts lines
484-501: subtract each fetched box in turn from the running remainder,
short-circuiting with none as soon as the remainder becomes empty. -/
def unfetchedLoop : List BBox → List BBox → Option (List BBox)
  | region, [] => some region
  | region, b :: rest =>
    match turfDifference region b with
    | none => none
    | some d => unfetchedLoop d rest

/-- getUnfetchedAreas from src/lib/geo.ts lines 477-515: start from the
viewport rectangle, subtract every fetched box, return the empty list when
the viewport is entirely covered and otherwise the list of simple
rectilinear pieces of the remainder (the source's final Polygon versus
MultiPolygon split). -/
def getUnfetchedAreas (currentViewport : BBox) (alreadyFetchedAreas : List BBox) :
    List BBox :=
  match unfetchedLoop [currentViewport] alreadyFetchedAreas with
  | none => []
  | some region => region

/-- Point-set semantics of a bounding box: the (latitude, longitude) point
lies in the closed rectangle.  Used to state coverage of the viewport by
the fetch history. -/
def memB (p : ℚ × ℚ) (r : BBox) : Prop :=
  r.south ≤ p.1 ∧ p.1 ≤ r.north ∧ r.west ≤ p.2 ∧ p.2 ≤ r.east

/-- The point lies strictly inside the rectangle. -/
def strictInside (p : ℚ × ℚ) (r : BBox) : Prop :=
  r.south < p.1 ∧ p.1 < r.north ∧ r.west < p.2 ∧ p.2 < r.east

/-! ### Shadow length over the reals (src/lib/shadow.ts lines 216-218) -/

/-- The shadow length buildingHeight / Math.tan(altitude) of
src/lib/shadow.ts lines 216-218, over the real numbers with the genuine
tangent, for the analytic monotonicity property. -/
noncomputable def shadowLengthR (height altitude : ℝ) : ℝ :=
  height / Real.tan altitude

/-! ### Shared helper lemmas -/

theorem contains_eq_true_iff {α : Type _} [BEq α] [LawfulBEq α] (l : List α) (x : α) :
    l.contains x = true ↔ x ∈ l := by
  simp [List.contains, List.elem_iff]

theorem nodup_merge_filter {α : Type _} (idf : α → String) (old nw : List α)
    (ho : (old.map idf).Nodup) (hn : (nw.map idf).Nodup) :
    ((old ++ nw.filter fun a => !((old.map idf).contains (idf a))).map idf).Nodup := by
  rw [List.map_append, List.nodup_append]
  refine ⟨ho, hn.sublist ((List.filter_sublist nw).map idf), ?_⟩
  intro x hx hx2
  rcases List.mem_map.mp hx2 with ⟨p, hp, rfl⟩
  rcases List.mem_filter.mp hp with ⟨_, hpred⟩
  rw [Bool.not_eq_eq_eq_not, Bool.not_true, ← Bool.not_eq_true] at hpred
  exact hpred ((contains_eq_true_iff _ _).mpr hx)

theorem filterMap_length_lt {α β : Type _} (f : α → Option β) (l : List α)
    (a : α) (ha : a ∈ l) (hfa : f a = none) :
    (l.filterMap f).length < l.length := by
  induction l with
  | nil => cases ha
  | cons b t ih =>
    rcases List.mem_cons.mp ha with rfl | hat
    · rw [List.filterMap_cons, hfa]
      exact Nat.lt_succ_of_le (List.length_filterMap_le f t)
    · rw [List.filterMap_cons]
      cases hfb : f b with
      | none => exact Nat.lt_succ_of_lt (ih hat)
      | some c => simpa using Nat.succ_lt_succ (ih hat)

/-! ### Sample data used by witnesses and counterexamples -/

/-- A plain point place with no geometry. -/
def placeA : Place :=
  { id := "a", name := none, tags := [], center := ⟨1, 2⟩, geometry := none,
    isBuildingOutline := false, relevantShadowPoint := none, isInSun := none }

/-- A second place with a distinct id. -/
def placeB : Place :=
  { id := "b", name := none, tags := [], center := ⟨3, 4⟩, geometry := none,
    isBuildingOutline := false, relevantShadowPoint := none, isInSun := none }

/-- A building record with no usable geometry. -/
def bldgA : Building :=
  { id := "a", geometry := none, height := none, center := ⟨0, 0⟩ }

/-- The empty accumulated-data state. -/
def emptyOsmState : OsmDataState :=
  { allFetchedPlaces := [], allFetchedBuildings := [], fetchedBoundsHistory := [] }

/-- A concrete bounding box. -/
def box1 : BBox := ⟨0, 0, 1, 1⟩

/-- A concrete geometry library standing in for the turf and Math
primitives in witnesses and counterexamples: the tangent stand-in is the
identity (positive at the sample altitudes), destination shifts the point,
convex returns the single-ring hull of its input points whenever at least
three are given, the centroid is a fixed coordinate. -/
def sampleLib : GeoLib where
  tan := fun x => x
  piQ := 3141592653589793 / 1000000000000000
  destination := fun p _ _ => some (p.1 + 1 / 1000, p.2 + 1 / 1000)
  convex := fun pts => if pts.length < 3 then none else some ⟨[pts]⟩
  centroid := fun _ => some ⟨1, 2⟩
  pointInPolygon := fun _ _ => false

/-- A closed unit-square footprint ring of five coordinate entries. -/
def ring0 : List Position := [(0, 0), (1, 0), (1, 1), (0, 1), (0, 0)]

/-- A building whose stored height is exactly 0. -/
def bldgH0 : Building :=
  { id := "b0", geometry := some (.polygon [ring0]), height := some 0,
    center := ⟨0, 0⟩ }

/-- A building with a valid footprint and a positive stored height. -/
def bldgOk : Building :=
  { id := "b1", geometry := some (.polygon [ring0]), height := some 12,
    center := ⟨0, 0⟩ }

/-- A sun position well above the shadow threshold. -/
def sun0 : SunPosition := { azimuth := 0, altitude := 2 }

/-- A sun position at altitude 0.5 rad, where the genuine tangent is
positive (tan 0.5 is approximately 0.546), so the real tanAltitude > 0
guard passes just as it does for the identity stand-in tangent. -/
def sunGood : SunPosition := { azimuth := 0, altitude := 1 / 2 }

/-- A concrete shadow polygon. -/
def poly1 : Poly := ⟨[ring0]⟩

/-- A place flagged as its own building outline with a polygon footprint. -/
def placeOutline : Place :=
  { id := "c", name := none, tags := [], center := ⟨5, 6⟩,
    geometry := some (.polygon [ring0]), isBuildingOutline := true,
    relevantShadowPoint := none, isInSun := none }

/-- A building with a valid footprint and a strictly negative stored
height. -/
def bldgNeg : Building :=
  { id := "bn", geometry := some (.polygon [ring0]), height := some (-5),
    center := ⟨0, 0⟩ }

/-- The sample library with a destination primitive that fails on every
vertex. -/
def failLib : GeoLib :=
  { sampleLib with destination := fun _ _ _ => none }

/-- The record produced for placeA by a classification pass with the sun
down. -/
def placeAShade : Place :=
  { placeA with isInSun := some false
                relevantShadowPoint := some placeA.center }

/-- The record produced for placeA by a classification pass with the sun
up and no buildings. -/
def placeASun : Place :=
  { placeA with isInSun := some true
                relevantShadowPoint := some placeA.center }

/-! ### C7: the merge action and the dedup invariant -/

/-- C7 counterexample: starting from the empty pool (trivially free of
duplicate ids), merging a batch that contains the same place record twice
leaves the place pool with two entries of the same id, because the source
only filters incoming records against the ids already in the pool, not
against one another. -/
theorem addFetchedOsmData_dup_batch_counterexample :
    (emptyOsmState.allFetchedPlaces.map Place.id).Nodup ∧
    ¬ ((addFetchedOsmData emptyOsmState [placeA, placeA] [] box1).allFetchedPlaces.map
        Place.id).Nodup := by
  decide

/-- C7 (amended): when the incoming batch itself carries pairwise-distinct
place ids and building ids, addFetchedOsmData preserves the invariant that
the accumulated pools contain no two entries with the same id, and it
always appends exactly the requested bounding box to the fetch history,
also when the batch is empty. -/
theorem addFetchedOsmData_dedup_amended (state : OsmDataState) (newPlaces : List Place)
    (newBuildings : List Building) (box : BBox)
    (hp : (state.allFetchedPlaces.map Place.id).Nodup)
    (hb : (state.allFetchedBuildings.map Building.id).Nodup)
    (hnp : (newPlaces.map Place.id).Nodup)
    (hnb : (newBuildings.map Building.id).Nodup) :
    ((addFetchedOsmData state newPlaces newBuildings box).allFetchedPlaces.map
        Place.id).Nodup ∧
    ((addFetchedOsmData state newPlaces newBuildings box).allFetchedBuildings.map
        Building.id).Nodup ∧
    (addFetchedOsmData state newPlaces newBuildings box).fetchedBoundsHistory
      = state.fetchedBoundsHistory ++ [box] := by
  refine ⟨nodup_merge_filter Place.id _ _ hp hnp,
    nodup_merge_filter Building.id _ _ hb hnb, rfl⟩

/-- C7 witness: a concrete merge of one new place and one new building into
a one-place pool keeps both pools duplicate-free and appends the box. -/
theorem addFetchedOsmData_dedup_amended_witness :
    ((addFetchedOsmData ⟨[placeA], [], []⟩ [placeB] [bldgA] box1).allFetchedPlaces.map
        Place.id).Nodup ∧
    ((addFetchedOsmData ⟨[placeA], [], []⟩ [placeB] [bldgA] box1).allFetchedBuildings.map
        Building.id).Nodup ∧
    (addFetchedOsmData ⟨[placeA], [], []⟩ [placeB] [bldgA] box1).fetchedBoundsHistory
      = [] ++ [box1] :=
  addFetchedOsmData_dedup_amended ⟨[placeA], [], []⟩ [placeB] [bldgA] box1
    (by decide) (by decide) (by decide) (by decide)

/-! ### C10: first-fetched-wins and idempotence of the merge -/

/-- C10: the merge keeps every pre-existing pool entry unchanged in place
(the new pool starts with the old pool), a pool entry after the merge is
either an old entry or an incoming record whose id was not yet present (so
an incoming record whose id already exists is discarded in favour of the
existing record), and merging the same batch a second time leaves both
entity pools exactly as after the first merge. -/
theorem addFetchedOsmData_first_wins (state : OsmDataState) (newPlaces : List Place)
    (newBuildings : List Building) (box : BBox) :
    ((addFetchedOsmData state newPlaces newBuildings box).allFetchedPlaces.take
        state.allFetchedPlaces.length = state.allFetchedPlaces) ∧
    ((addFetchedOsmData state newPlaces newBuildings box).allFetchedBuildings.take
        state.allFetchedBuildings.length = state.allFetchedBuildings) ∧
    (∀ q, q ∈ (addFetchedOsmData state newPlaces newBuildings box).allFetchedPlaces ↔
      (q ∈ state.allFetchedPlaces ∨
        (q ∈ newPlaces ∧ ¬ q.id ∈ state.allFetchedPlaces.map Place.id))) ∧
    (∀ b, b ∈ (addFetchedOsmData state newPlaces newBuildings box).allFetchedBuildings ↔
      (b ∈ state.allFetchedBuildings ∨
        (b ∈ newBuildings ∧ ¬ b.id ∈ state.allFetchedBuildings.map Building.id))) ∧
    ((addFetchedOsmData (addFetchedOsmData state newPlaces newBuildings box)
        newPlaces newBuildings box).allFetchedPlaces
      = (addFetchedOsmData state newPlaces newBuildings box).allFetchedPlaces) ∧
    ((addFetchedOsmData (addFetchedOsmData state newPlaces newBuildings box)
        newPlaces newBuildings box).allFetchedBuildings
      = (addFetchedOsmData state newPlaces newBuildings box).allFetchedBuildings) := by
  have hmem : ∀ {α : Type} (idf : α → String) (old nw : List α) (q : α),
      q ∈ old ++ (nw.filter fun a => !((old.map idf).contains (idf a))) ↔
        (q ∈ old ∨ (q ∈ nw ∧ ¬ idf q ∈ old.map idf)) := by
    intro α idf old nw q
    rw [List.mem_append, List.mem_filter]
    constructor
    · rintro (h | ⟨h1, h2⟩)
      · exact Or.inl h
      · refine Or.inr ⟨h1, ?_⟩
        rw [Bool.not_eq_eq_eq_not, Bool.not_true, ← Bool.not_eq_true] at h2
        exact fun hmem2 => h2 ((contains_eq_true_iff _ _).mpr hmem2)
    · rintro (h | ⟨h1, h2⟩)
      · exact Or.inl h
      · refine Or.inr ⟨h1, ?_⟩
        rw [Bool.not_eq_eq_eq_not, Bool.not_true, ← Bool.not_eq_true]
        exact fun hc => h2 ((contains_eq_true_iff _ _).mp hc)
  have hidem : ∀ {α : Type} (idf : α → String) (old nw : List α),
      (nw.filter fun a =>
        !(((old ++ (nw.filter fun a => !((old.map idf).contains (idf a)))).map idf).contains
          (idf a))) = [] := by
    intro α idf old nw
    refine List.filter_eq_nil_iff.mpr fun p hp => ?_
    rw [Bool.not_eq_eq_eq_not, Bool.not_true, Bool.not_eq_false]
    refine (contains_eq_true_iff _ _).mpr ?_
    rw [List.map_append, List.mem_append]
    by_cases hc : (old.map idf).contains (idf p) = true
    · exact Or.inl ((contains_eq_true_iff _ _).mp hc)
    · refine Or.inr (List.mem_map.mpr ⟨p, List.mem_filter.mpr ⟨hp, ?_⟩, rfl⟩)
      rw [Bool.not_eq_eq_eq_not, Bool.not_true, ← Bool.not_eq_true]
      exact hc
  refine ⟨List.take_left .., List.take_left .., fun q => hmem Place.id _ _ q,
    fun b => hmem Building.id _ _ b, ?_, ?_⟩
  · have hP : (addFetchedOsmData state newPlaces newBuildings box).allFetchedPlaces
        = state.allFetchedPlaces ++
          (newPlaces.filter fun a =>
            !((state.allFetchedPlaces.map Place.id).contains a.id)) := rfl
    show (addFetchedOsmData state newPlaces newBuildings box).allFetchedPlaces ++
        (newPlaces.filter fun a =>
          !(((addFetchedOsmData state newPlaces newBuildings
            box).allFetchedPlaces.map Place.id).contains a.id))
      = (addFetchedOsmData state newPlaces newBuildings box).allFetchedPlaces
    rw [hP, hidem Place.id, List.append_nil]
  · have hB : (addFetchedOsmData state newPlaces newBuildings box).allFetchedBuildings
        = state.allFetchedBuildings ++
          (newBuildings.filter fun a =>
            !((state.allFetchedBuildings.map Building.id).contains a.id)) := rfl
    show (addFetchedOsmData state newPlaces newBuildings box).allFetchedBuildings ++
        (newBuildings.filter fun a =>
          !(((addFetchedOsmData state newPlaces newBuildings
            box).allFetchedBuildings.map Building.id).contains a.id))
      = (addFetchedOsmData state newPlaces newBuildings box).allFetchedBuildings
    rw [hB, hidem Building.id, List.append_nil]

/-- C10 witness: merging a batch whose place id collides with the pool
discards the incoming record, keeps the pool entries, and a repeated merge
leaves the pools unchanged. -/
theorem addFetchedOsmData_first_wins_witness :
    ((addFetchedOsmData ⟨[placeA], [bldgA], []⟩ [placeB] [] box1).allFetchedPlaces.take 1
      = [placeA]) ∧
    (placeB ∈ (addFetchedOsmData ⟨[placeA], [bldgA], []⟩ [placeB] [] box1).allFetchedPlaces) := by
  have h := addFetchedOsmData_first_wins ⟨[placeA], [bldgA], []⟩ [placeB] [] box1
  exact ⟨h.1, (h.2.2.1 placeB).mpr (Or.inr ⟨by decide, by decide⟩)⟩

/-! ### C4: coverage idempotence of getUnfetchedAreas -/

theorem rectMinus_of_subset (a b : BBox) (hs : b.south ≤ a.south) (hw : b.west ≤ a.west)
    (hn : a.north ≤ b.north) (he : a.east ≤ b.east) : rectMinus a b = [] := by
  have h1 : ¬(a.south < min a.north b.south ∧ a.west < a.east) :=
    fun h => absurd h.1 (not_lt.mpr (le_trans (min_le_right _ _) hs))
  have h2 : ¬(max a.south b.north < a.north ∧ a.west < a.east) :=
    fun h => absurd h.1 (not_lt.mpr (le_trans hn (le_max_right _ _)))
  have h3 : ¬(max a.south b.south < min a.north b.north ∧ a.west < min a.east b.west) :=
    fun h => absurd h.2 (not_lt.mpr (le_trans (min_le_right _ _) hw))
  have h4 : ¬(max a.south b.south < min a.north b.north ∧ max a.west b.east < a.east) :=
    fun h => absurd h.2 (not_lt.mpr (le_trans he (le_max_right _ _)))
  simp only [rectMinus, List.filter_cons, List.filter_nil, Bool.and_eq_true,
    decide_eq_true_eq]
  rw [if_neg h1, if_neg h2, if_neg h3, if_neg h4]

theorem mem_regionMinus {reg : List BBox} {b r : BBox} :
    r ∈ regionMinus reg b ↔ ∃ a ∈ reg, r ∈ rectMinus a b := by
  induction reg with
  | nil => simp [regionMinus]
  | cons a t ih =>
    have hcons : regionMinus (a :: t) b = rectMinus a b ++ regionMinus t b := rfl
    rw [hcons, List.mem_append, ih]
    constructor
    · rintro (h | ⟨x, hx, hr⟩)
      · exact ⟨a, List.mem_cons_self a t, h⟩
      · exact ⟨x, List.mem_cons_of_mem a hx, hr⟩
    · rintro ⟨x, hx, hr⟩
      rcases List.mem_cons.mp hx with rfl | hxt
      · exact Or.inl hr
      · exact Or.inr ⟨x, hxt, hr⟩

theorem regionMinus_nondeg (reg : List BBox) (b r : BBox)
    (hr : r ∈ regionMinus reg b) : r.south < r.north ∧ r.west < r.east := by
  obtain ⟨a, _, hrm⟩ := mem_regionMinus.mp hr
  obtain ⟨_, hpred⟩ := List.mem_filter.mp hrm
  simpa [Bool.and_eq_true, decide_eq_true_eq] using hpred

theorem turfDifference_some {reg : List BBox} {b : BBox} {d : List BBox}
    (h : turfDifference reg b = some d) : d = regionMinus reg b := by
  simp only [turfDifference] at h
  by_cases hnil : regionMinus reg b = []
  · rw [if_pos hnil] at h
    exact Option.noConfusion h
  · rw [if_neg hnil] at h
    exact (Option.some_inj.mp h).symm

theorem rectMinus_strictInside (a b r : BBox) (hr : r ∈ rectMinus a b)
    (p : ℚ × ℚ) (hp : strictInside p r) :
    strictInside p a ∧ ¬ memB p b := by
  obtain ⟨hmem, _⟩ := List.mem_filter.mp hr
  simp only [List.mem_cons, List.not_mem_nil, or_false] at hmem
  obtain ⟨h1, h2, h3, h4⟩ := hp
  rcases hmem with rfl | rfl | rfl | rfl
  · dsimp only at h1 h2 h3 h4
    rw [lt_min_iff] at h2
    exact ⟨⟨h1, h2.1, h3, h4⟩, fun hm => absurd hm.1 (not_le.mpr h2.2)⟩
  · dsimp only at h1 h2 h3 h4
    rw [max_lt_iff] at h1
    exact ⟨⟨h1.1, h2, h3, h4⟩, fun hm => absurd hm.2.1 (not_le.mpr h1.2)⟩
  · dsimp only at h1 h2 h3 h4
    rw [max_lt_iff] at h1
    rw [lt_min_iff] at h2 h4
    exact ⟨⟨h1.1, h2.1, h3, h4.1⟩, fun hm => absurd hm.2.2.1 (not_le.mpr h4.2)⟩
  · dsimp only at h1 h2 h3 h4
    rw [max_lt_iff] at h1 h3
    rw [lt_min_iff] at h2
    exact ⟨⟨h1.1, h2.1, h3.1, h4⟩, fun hm => absurd hm.2.2.2 (not_le.mpr h3.2)⟩

theorem unfetchedLoop_strictInside (p : ℚ × ℚ) :
    ∀ (hist : List BBox) (reg reg' : List BBox),
    unfetchedLoop reg hist = some reg' →
    ∀ r ∈ reg', strictInside p r →
    (∃ a ∈ reg, strictInside p a) ∧ ∀ b ∈ hist, ¬ memB p b := by
  intro hist
  induction hist with
  | nil =>
    intro reg reg' hloop r hr hp
    simp only [unfetchedLoop] at hloop
    obtain rfl := Option.some_inj.mp hloop
    exact ⟨⟨r, hr, hp⟩, by simp⟩
  | cons b t ih =>
    intro reg reg' hloop r hr hp
    simp only [unfetchedLoop] at hloop
    cases hd : turfDifference reg b with
    | none =>
      simp only [hd] at hloop
      exact Option.noConfusion hloop
    | some d =>
      simp only [hd] at hloop
      have hdd := turfDifference_some hd
      obtain ⟨⟨x, hxd, hpx⟩, hrest⟩ := ih d reg' hloop r hr hp
      rw [hdd] at hxd
      obtain ⟨a, ha, hxm⟩ := mem_regionMinus.mp hxd
      obtain ⟨hin, hnb⟩ := rectMinus_strictInside a b x hxm p hpx
      refine ⟨⟨a, ha, hin⟩, fun b' hb' => ?_⟩
      rcases List.mem_cons.mp hb' with rfl | hbt
      · exact hnb
      · exact hrest b' hbt

theorem unfetchedLoop_nondeg :
    ∀ (hist : List BBox) (reg reg' : List BBox),
    unfetchedLoop reg hist = some reg' → hist ≠ [] →
    ∀ r ∈ reg', r.south < r.north ∧ r.west < r.east := by
  intro hist
  induction hist with
  | nil =>
    intro reg reg' _ hne
    exact absurd rfl hne
  | cons b t ih =>
    intro reg reg' hloop _
    simp only [unfetchedLoop] at hloop
    cases hd : turfDifference reg b with
    | none =>
      simp only [hd] at hloop
      exact Option.noConfusion hloop
    | some d =>
      simp only [hd] at hloop
      have hdd := turfDifference_some hd
      cases t with
      | nil =>
        simp only [unfetchedLoop] at hloop
        obtain rfl := Option.some_inj.mp hloop
        intro r hr
        exact regionMinus_nondeg reg b r (hdd ▸ hr)
      | cons b2 t2 =>
        exact ih d reg' hloop (List.cons_ne_nil b2 t2)

/-- C4: getUnfetchedAreas returns the empty list whenever the history
already fully covers the viewport — for any history whose boxes jointly
contain every point of a valid viewport rectangle, and in particular when
the history is exactly the viewport itself or the viewport is contained in
a single previously fetched box — and with an empty history it returns the
single region that is exactly the whole viewport rectangle. -/
theorem getUnfetchedAreas_coverage (vp box : BBox) (hist : List BBox)
    (hvpS : vp.south ≤ vp.north) (hvpW : vp.west ≤ vp.east)
    (hcover : ∀ p : ℚ × ℚ, memB p vp → ∃ b ∈ hist, memB p b)
    (hs : box.south ≤ vp.south) (hw : box.west ≤ vp.west)
    (hn : vp.north ≤ box.north) (he : vp.east ≤ box.east) :
    getUnfetchedAreas vp hist = [] ∧
    getUnfetchedAreas vp [vp] = [] ∧
    getUnfetchedAreas vp [box] = [] ∧
    getUnfetchedAreas vp [] = [vp] := by
  refine ⟨?_, ?_, ?_, rfl⟩
  · cases hist with
    | nil =>
      exact absurd (hcover (vp.south, vp.west) ⟨le_refl _, hvpS, le_refl _, hvpW⟩)
        (by simp)
    | cons b t =>
      cases hl : unfetchedLoop [vp] (b :: t) with
      | none => simp [getUnfetchedAreas, hl]
      | some reg =>
        simp only [getUnfetchedAreas, hl]
        by_contra hne
        obtain ⟨r, hr⟩ := List.exists_mem_of_ne_nil reg hne
        obtain ⟨hnd1, hnd2⟩ := unfetchedLoop_nondeg (b :: t) [vp] reg hl (by simp) r hr
        have hstrict : strictInside ((r.south + r.north) / 2, (r.west + r.east) / 2) r :=
          ⟨by linarith, by linarith, by linarith, by linarith⟩
        obtain ⟨⟨a, ha, hin⟩, hnb⟩ := unfetchedLoop_strictInside
          ((r.south + r.north) / 2, (r.west + r.east) / 2) (b :: t) [vp] reg hl r hr hstrict
        have havp : a = vp := by simpa using ha
        subst havp
        obtain ⟨bb, hbb, hmem⟩ := hcover _
          ⟨hin.1.le, hin.2.1.le, hin.2.2.1.le, hin.2.2.2.le⟩
        exact hnb bb hbb hmem
  · simp [getUnfetchedAreas, unfetchedLoop, turfDifference, regionMinus,
      rectMinus_of_subset vp vp le_rfl le_rfl le_rfl le_rfl]
  · simp [getUnfetchedAreas, unfetchedLoop, turfDifference, regionMinus,
      rectMinus_of_subset vp box hs hw hn he]

/-- C4 witness: for the viewport rectangle from (0,0) to (1,2), a history
of two boxes that jointly cover it (its west and east halves) yields no
unfetched area, as do the history holding the viewport itself and a single
strictly larger box, while the empty history yields exactly the
viewport. -/
theorem getUnfetchedAreas_coverage_witness :
    getUnfetchedAreas ⟨0, 0, 1, 2⟩ [⟨0, 0, 1, 1⟩, ⟨0, 1, 1, 2⟩] = [] ∧
    getUnfetchedAreas ⟨0, 0, 1, 2⟩ [⟨0, 0, 1, 2⟩] = [] ∧
    getUnfetchedAreas ⟨0, 0, 1, 2⟩ [⟨-1, -1, 2, 3⟩] = [] ∧
    getUnfetchedAreas ⟨0, 0, 1, 2⟩ [] = [⟨0, 0, 1, 2⟩] :=
  getUnfetchedAreas_coverage ⟨0, 0, 1, 2⟩ ⟨-1, -1, 2, 3⟩ [⟨0, 0, 1, 1⟩, ⟨0, 1, 1, 2⟩]
    (by norm_num) (by norm_num)
    (fun p hp => if h : p.2 ≤ 1
      then ⟨⟨0, 0, 1, 1⟩, by simp, ⟨hp.1, hp.2.1, hp.2.2.1, h⟩⟩
      else ⟨⟨0, 1, 1, 2⟩, by simp, ⟨hp.1, hp.2.1, le_of_not_le h, hp.2.2.2⟩⟩)
    (by norm_num) (by norm_num) (by norm_num) (by norm_num)

/-! ### C5: totality and containment semantics of isLocationInSun -/

/-- C5: isLocationInSun is a total boolean function (it is a Lean function
into Bool, mirroring the source where every path returns a boolean and the
containment test is wrapped in a catch); a null location yields the in-sun
default true; an empty shadow list yields true; and for a present location
the result is true exactly when the point is contained in none of the
(non-null) shadow polygons. -/
theorem isLocationInSun_total_spec (pip : Position → Poly → Bool)
    (location : Option Coordinates) (shadows : List (Option Poly)) :
    (location = none → isLocationInSun pip location shadows = true) ∧
    (isLocationInSun pip location [] = true) ∧
    (∀ c, location = some c →
      (isLocationInSun pip location shadows = true ↔
        ∀ s ∈ shadows, ∀ poly, s = some poly →
          pip (posOfCoord c) poly = false)) := by
  refine ⟨fun h => by subst h; rfl, ?_, ?_⟩
  · rcases location with _ | c
    · rfl
    · rfl
  · rintro c rfl
    cases shadows with
    | nil => simp [isLocationInSun]
    | cons s t =>
      show (if (s :: t).length = 0 then true
        else !((s :: t).any fun s => match s with
          | some shadowFeature => pip (posOfCoord c) shadowFeature
          | none => false)) = true ↔ _
      rw [if_neg (by simp)]
      rw [Bool.not_eq_true', List.any_eq_false]
      constructor
      · intro h s' hs' poly hpoly
        have hh := h s' hs'
        rw [hpoly] at hh
        simpa using hh
      · intro h s' hs'
        cases s' with
        | none => exact Bool.false_ne_true
        | some poly => simpa using h (some poly) hs' poly rfl

/-- C5 witness: a missing location defaults to in-sun, and a present
location not contained in the single shadow is in-sun. -/
theorem isLocationInSun_total_spec_witness :
    isLocationInSun (fun _ _ => false) none [some poly1] = true ∧
    isLocationInSun (fun _ _ => false) (some ⟨1, 2⟩) [some poly1] = true :=
  ⟨(isLocationInSun_total_spec (fun _ _ => false) none [some poly1]).1 rfl,
   ((isLocationInSun_total_spec (fun _ _ => false) (some ⟨1, 2⟩)
      [some poly1]).2.2 ⟨1, 2⟩ rfl).mpr fun _ _ _ _ => rfl⟩

/-! ### C6: relevant-shadow-point selection -/

/-- C6: getRelevantShadowPointForPlace ignores the building list entirely
(no edge-snapping, no inside-building detection); for a place flagged as a
building outline with a non-empty polygon footprint it returns the
library centroid of that footprint, falling back to the stored center when
the centroid computation fails; in every other case it returns the stored
center directly. -/
theorem getRelevantShadowPointForPlace_spec (lib : GeoLib) (place : Place)
    (buildings : List Building) :
    (getRelevantShadowPointForPlace lib place buildings
      = getRelevantShadowPointForPlace lib place []) ∧
    (∀ rings, place.geometry = some (.polygon rings) →
      place.isBuildingOutline = true → rings ≠ [] →
      getRelevantShadowPointForPlace lib place buildings
        = (lib.centroid rings).getD place.center) ∧
    (usesOwnCentroid place = false →
      getRelevantShadowPointForPlace lib place buildings = place.center) := by
  refine ⟨rfl, ?_, ?_⟩
  · intro rings hg ho hne
    simp only [getRelevantShadowPointForPlace, hg]
    rw [if_pos ⟨ho, hne⟩]
    cases h : lib.centroid rings <;> simp [h]
  · intro h
    cases hg : place.geometry with
    | none => simp [getRelevantShadowPointForPlace, hg]
    | some g =>
      cases g with
      | point pos => simp [getRelevantShadowPointForPlace, hg]
      | lineString pts => simp [getRelevantShadowPointForPlace, hg]
      | polygon rings =>
        simp only [usesOwnCentroid, hg] at h
        simp only [getRelevantShadowPointForPlace, hg]
        rw [if_neg ?_]
        rintro ⟨hb, hne⟩
        rcases Bool.and_eq_false_iff.mp h with hb' | hempty
        · rw [hb'] at hb
          exact absurd hb (by simp)
        · rw [Bool.not_eq_false'] at hempty
          exact hne (List.isEmpty_iff.mp hempty)

/-- C6 witness: a concrete outline place with a polygon footprint takes
the library centroid, and a plain point place takes its stored center,
with a non-empty building list ignored in both cases. -/
theorem getRelevantShadowPointForPlace_spec_witness :
    getRelevantShadowPointForPlace sampleLib placeOutline [bldgA] = ⟨1, 2⟩ ∧
    getRelevantShadowPointForPlace sampleLib placeA [bldgA] = placeA.center := by
  constructor
  · have h := (getRelevantShadowPointForPlace_spec sampleLib placeOutline
      [bldgA]).2.1 [ring0] rfl rfl (by decide)
    exact h.trans rfl
  · exact (getRelevantShadowPointForPlace_spec sampleLib placeA [bldgA]).2.2 (by decide)

/-! ### C2: degenerate classification cases -/

/-- C2: in the classification effect, when the sun position is unavailable
every place is marked in-shade whatever the building list holds, and when
the sun is up but the building list is empty every place is marked
in-sun. -/
theorem classifyPlaces_degenerate (lib : GeoLib) (sp : SunPosition)
    (buildings : List Building) (places : List Place) :
    (∀ q ∈ classifyPlaces lib none buildings places, q.isInSun = some false) ∧
    (∀ q ∈ classifyPlaces lib (some sp) [] places, q.isInSun = some true) := by
  constructor
  · intro q hq
    simp only [classifyPlaces, List.mem_map] at hq
    rcases hq with ⟨p, _, rfl⟩
    rfl
  · intro q hq
    simp only [classifyPlaces, List.length_nil, if_true, List.mem_map] at hq
    rcases hq with ⟨p, _, rfl⟩
    rfl

/-- C2 witness: the classification of a concrete place is in-shade with
the sun down and a non-empty building list, and in-sun with the sun up and
no buildings. -/
theorem classifyPlaces_degenerate_witness :
    (placeAShade).isInSun = some false ∧ (placeASun).isInSun = some true :=
  ⟨(classifyPlaces_degenerate sampleLib sun0 [bldgA] [placeA]).1 _ (by decide),
   (classifyPlaces_degenerate sampleLib sun0 [bldgA] [placeA]).2 _ (by decide)⟩

/-! ### C3: the shadow bearing is opposite the sun -/

theorem rmodQ_nonneg (x y : ℚ) (hy : 0 < y) : 0 ≤ rmodQ x y := by
  unfold rmodQ
  have h : ((⌊x / y⌋ : ℚ)) ≤ x / y := Int.floor_le (x / y)
  have h2 : y * ((⌊x / y⌋ : ℚ)) ≤ y * (x / y) := mul_le_mul_of_nonneg_left h hy.le
  have h3 : y * (x / y) = x := by field_simp
  linarith

theorem jsModQ_eq_rmodQ (x y : ℚ) (hx : 0 ≤ x) (hy : 0 < y) :
    jsModQ x y = rmodQ x y := by
  unfold jsModQ rmodQ truncQ
  rw [if_pos (div_nonneg hx hy.le)]

/-- C3: for any positive value of the pi constant and any azimuth not
below -pi (the SunCalc azimuth is measured from south in the interval
from -pi to pi), the bearing along which calculateShadowPolygon projects
every footprint vertex equals the azimuth converted to a compass bearing
from north plus 180 degrees, reduced modulo 360 — the direction opposite
the sun. -/
theorem shadowBearing_opposite_sun (piQ azimuth : ℚ)
    (hpi : 0 < piQ) (haz : -piQ ≤ azimuth) :
    shadowBearing piQ azimuth = specShadowBearing piQ azimuth := by
  have hpos : (0 : ℚ) < 180 / piQ := by positivity
  have hmul := mul_le_mul_of_nonneg_right haz hpos.le
  have heq : -piQ * (180 / piQ) = -180 := by
    field_simp
    ring
  have h180 : (0 : ℚ) ≤ azimuth * (180 / piQ) + 180 := by linarith
  have hinner := rmodQ_nonneg (azimuth * (180 / piQ) + 180) 360 (by norm_num)
  unfold shadowBearing specShadowBearing sunAzimuthDegreesFromNorth compassBearingFromNorth
  rw [jsModQ_eq_rmodQ _ _ h180 (by norm_num)]
  rw [jsModQ_eq_rmodQ _ _ (by linarith) (by norm_num)]

/-- C3 witness: at azimuth 0 (sun due south) with the double-precision
value of Math.PI, the code bearing and the spec bearing agree. -/
theorem shadowBearing_opposite_sun_witness :
    shadowBearing sampleLib.piQ 0 = specShadowBearing sampleLib.piQ 0 :=
  shadowBearing_opposite_sun sampleLib.piQ 0
    (by norm_num [sampleLib]) (by norm_num [sampleLib])

/-! ### C9: shadow length grows as the sun sinks -/

/-- C9: for a fixed positive height, the shadow length height / tan
(altitude) is strictly larger at the lower of two altitudes, for
altitudes strictly between 0 and pi / 2. -/
theorem shadowLength_antitone_in_altitude (height a₁ a₂ : ℝ)
    (hh : 0 < height) (h1 : 0 < a₁) (h12 : a₁ < a₂) (h2 : a₂ < Real.pi / 2) :
    shadowLengthR height a₂ < shadowLengthR height a₁ := by
  have ht1 : 0 < Real.tan a₁ := Real.tan_pos_of_pos_of_lt_pi_div_two h1 (h12.trans h2)
  have ht12 : Real.tan a₁ < Real.tan a₂ :=
    Real.tan_lt_tan_of_nonneg_of_lt_pi_div_two h1.le h2 h12
  exact div_lt_div_of_pos_left hh ht1 ht12

/-- C9 witness: at height 10, the shadow is strictly shorter at altitude
pi / 4 than at altitude pi / 6. -/
theorem shadowLength_antitone_in_altitude_witness :
    shadowLengthR 10 (Real.pi / 4) < shadowLengthR 10 (Real.pi / 6) :=
  shadowLength_antitone_in_altitude 10 (Real.pi / 6) (Real.pi / 4)
    (by norm_num) (by positivity) (by linarith [Real.pi_pos])
    (by linarith [Real.pi_pos])

/-! ### C1: the no-shadow guards of calculateShadowPolygon -/

/-- C1 counterexample: bldgH0 stores height exactly 0, which satisfies the
claim's guard "height ≤ 0", yet at sun altitude 0.5 rad (where the genuine
tangent is about 0.546, strictly positive, so the real tanAltitude ≤ 0
guard does not fire either; the identity stand-in tangent gives the
likewise positive 0.5) calculateShadowPolygon returns a shadow polygon
rather than null: the JavaScript truthiness fallback replaces the falsy
height 0 with the 10 m default before the non-positivity check ever sees
it, the shadow length 10 / tan(0.5) is far above the 1 cm epsilon both for
the real tangent (about 18.3 m) and for the stand-in (20 m), and the
projection and hull steps succeed on the valid square footprint. -/
theorem calculateShadowPolygon_height_zero_counterexample :
    bldgH0.height = some 0 ∧
    calculateShadowPolygon sampleLib bldgH0 sunGood ≠ none := by
  refine ⟨rfl, ?_⟩
  norm_num [calculateShadowPolygon, sampleLib, bldgH0, sunGood, footprintRing, ring0,
    jsOrQ, MIN_SUN_ALTITUDE_RAD, DEFAULT_BUILDING_HEIGHT, shadowBearing,
    sunAzimuthDegreesFromNorth, jsModQ, truncQ, List.filterMap_cons,
    List.filterMap_nil]
  exact Option.some_ne_none _

/-- C1 (amended): calculateShadowPolygon returns no shadow whenever the
sun altitude is at or below the 0.01 rad threshold — in particular for all
altitudes ≤ 0 — and whenever the stored building height is strictly
negative.  A stored height of exactly 0 is JavaScript-falsy, falls back to
the 10 m default and can therefore still produce a shadow. -/
theorem calculateShadowPolygon_no_shadow (lib : GeoLib) (building : Building)
    (sun : SunPosition) :
    (sun.altitude ≤ MIN_SUN_ALTITUDE_RAD →
      calculateShadowPolygon lib building sun = none) ∧
    (∀ hq : ℚ, building.height = some hq → hq < 0 →
      calculateShadowPolygon lib building sun = none) := by
  constructor
  · intro halt
    cases hg : building.geometry with
    | none => simp [calculateShadowPolygon, hg]
    | some geom =>
      simp only [calculateShadowPolygon, hg]
      rw [if_pos halt]
  · intro hq hh hneg
    cases hg : building.geometry with
    | none => simp [calculateShadowPolygon, hg]
    | some geom =>
      have hble : jsOrQ building.height DEFAULT_BUILDING_HEIGHT ≤ 0 := by
        rw [hh]
        simp only [jsOrQ]
        rw [if_neg (ne_of_lt hneg)]
        exact hneg.le
      simp only [calculateShadowPolygon, hg]
      by_cases h1 : sun.altitude ≤ MIN_SUN_ALTITUDE_RAD
      · rw [if_pos h1]
      · rw [if_neg h1, if_pos hble]

/-- C1 witness: a concrete building yields no shadow at altitude 0, and a
concrete building of height -5 yields no shadow with the sun well up. -/
theorem calculateShadowPolygon_no_shadow_witness :
    calculateShadowPolygon sampleLib bldgOk { azimuth := 0, altitude := 0 } = none ∧
    calculateShadowPolygon sampleLib bldgNeg sun0 = none :=
  ⟨(calculateShadowPolygon_no_shadow sampleLib bldgOk
      { azimuth := 0, altitude := 0 }).1 (by norm_num [MIN_SUN_ALTITUDE_RAD]),
   (calculateShadowPolygon_no_shadow sampleLib bldgNeg sun0).2 (-5) rfl (by norm_num)⟩

/-! ### C8: all-or-nothing failure handling of calculateShadowPolygon -/

/-- C8: calculateShadowPolygon is a total function into an Option (never
an exception), and it degrades all-or-nothing: when any footprint vertex's
projection fails the whole computation returns none (the projection count
then falls short of the vertex count and the mismatch guard fires), and
every run either returns none or returns exactly a polygon produced by the
convex-hull primitive — never a partially-computed shadow. -/
theorem calculateShadowPolygon_all_or_nothing (lib : GeoLib) (building : Building)
    (sun : SunPosition) :
    (∀ geom fp, building.geometry = some geom → footprintRing geom = some fp →
      (∃ v ∈ fp, lib.destination v (shadowLengthQ lib building sun)
        (shadowBearing lib.piQ sun.azimuth) = none) →
      calculateShadowPolygon lib building sun = none) ∧
    (calculateShadowPolygon lib building sun = none ∨
      ∃ pts poly, lib.convex pts = some poly ∧
        calculateShadowPolygon lib building sun = some poly) := by
  constructor
  · rintro geom fp hg hfp ⟨v, hv, hdest⟩
    have hdest' : lib.destination v
        (jsOrQ building.height DEFAULT_BUILDING_HEIGHT / lib.tan sun.altitude)
        (shadowBearing lib.piQ sun.azimuth) = none := hdest
    have hlt := filterMap_length_lt
      (fun w => lib.destination w
        (jsOrQ building.height DEFAULT_BUILDING_HEIGHT / lib.tan sun.altitude)
        (shadowBearing lib.piQ sun.azimuth)) fp v hv hdest'
    simp only [calculateShadowPolygon, hg, hfp]
    split_ifs with h1 h2 h3 h4 h5 h6 <;> try rfl
    exact absurd (Or.inl hlt.ne) h5
  · cases hg : building.geometry with
    | none => left; simp [calculateShadowPolygon, hg]
    | some geom =>
      simp only [calculateShadowPolygon, hg]
      split_ifs with h1 h2 h3 h4
      · left; rfl
      · left; rfl
      · left; rfl
      · left; rfl
      · cases hfp : footprintRing geom with
        | none => left; rfl
        | some fp =>
          simp only [hfp]
          split_ifs with h5 h6
          · left; rfl
          · left; rfl
          · cases hc : lib.convex (fp ++ fp.filterMap fun w => lib.destination w
              (jsOrQ building.height DEFAULT_BUILDING_HEIGHT / lib.tan sun.altitude)
              (shadowBearing lib.piQ sun.azimuth)) with
            | none => left; rfl
            | some poly => right; exact ⟨_, poly, hc, rfl⟩

/-- C8 witness: with a destination primitive that fails on every vertex,
the shadow of a concrete valid building at a good sun position is null. -/
theorem calculateShadowPolygon_all_or_nothing_witness :
    calculateShadowPolygon failLib bldgOk sun0 = none :=
  (calculateShadowPolygon_all_or_nothing failLib bldgOk sun0).1
    (.polygon [ring0]) ring0 rfl rfl ⟨(0, 0), by decide, rfl⟩

end Usuncu
